import Mathlib

/-!
Verification of the pipeline-orchestration core of the podcast-rag-server
repository: the SQLite-backed item store and lock table
(`scripts/db/progress.py`), the feed-progress aggregator
(`scripts/monitor/feed_analyzer.py`), and the supervisor tick fragments of
`scripts/monitor/main.py` (stall detection and Patreon backoff/failover).

The embedding is shallow: SQLite tables become Lean lists of rows, SQL
timestamps become `Nat`/`Int` instants supplied as parameters, and every
database operation becomes a pure function from the old state to the new
state (plus its return value).
-/

namespace PodcastRag

/-! ## Item store (`scripts/db/progress.py`) -/

/-- `EpisodeStatus` from `scripts/db/progress.py` lines 19-29. -/
inductive EpisodeStatus where
  | pending
  | downloading
  | downloaded
  | transcribing
  | transcribed
  | enriching
  | enriched
  | failed
  | skipped
  deriving DecidableEq, Repr

/-- One row of the `episodes` table (schema: `progress.py` lines 75-95).
`TEXT` timestamp columns are modelled as abstract `Nat` instants. -/
structure Episode where
  podcast_name : String
  episode_title : String
  episode_url : Option String
  guid : Option String
  status : EpisodeStatus
  error_message : Option String
  audio_path : Option String
  transcript_path : Option String
  enrichment_path : Option String
  download_started_at : Option Nat
  download_completed_at : Option Nat
  transcribe_started_at : Option Nat
  transcribe_completed_at : Option Nat
  enrich_started_at : Option Nat
  enrich_completed_at : Option Nat
  created_at : Nat
  updated_at : Nat
  deriving DecidableEq, Repr

/-- One row of the `processing_locks` table (schema: `progress.py`
lines 106-111): `episode_id` is the primary key. -/
structure LockRow where
  episode_id : Nat
  worker_id : String
  locked_at : Nat
  deriving DecidableEq, Repr

/-- The durable store: the `episodes` table keyed by the AUTOINCREMENT
`id`, the `processing_locks` table, and the next AUTOINCREMENT value. -/
structure ProgressDB where
  episodes : List (Nat × Episode)
  locks : List LockRow
  next_id : Nat
  deriving Repr

/-- Key predicate of the `UNIQUE(podcast_name, episode_title)` constraint. -/
def episodeKey (pn et : String) (p : Nat × Episode) : Bool :=
  p.2.podcast_name == pn && p.2.episode_title == et

/-- `SELECT * FROM episodes WHERE podcast_name = ? AND episode_title = ?`
(`get_episode`, `progress.py` lines 160-180). -/
def ProgressDB.get_episode (db : ProgressDB) (pn et : String) :
    Option (Nat × Episode) :=
  db.episodes.find? (episodeKey pn et)

/-- `SELECT * FROM episodes WHERE id = ?` (`get_episode_by_id`). -/
def ProgressDB.get_episode_by_id (db : ProgressDB) (episode_id : Nat) :
    Option Episode :=
  (db.episodes.find? (fun p => p.1 == episode_id)).map (·.2)

/-- A freshly inserted `episodes` row: every column takes its schema
default (`status TEXT NOT NULL DEFAULT 'pending'`, timestamps `NULL`,
`created_at`/`updated_at` `CURRENT_TIMESTAMP`). -/
def newEpisode (pn et : String) (episode_url guid : Option String)
    (now : Nat) : Episode :=
  { podcast_name := pn
    episode_title := et
    episode_url := episode_url
    guid := guid
    status := .pending
    error_message := none
    audio_path := none
    transcript_path := none
    enrichment_path := none
    download_started_at := none
    download_completed_at := none
    transcribe_started_at := none
    transcribe_completed_at := none
    enrich_started_at := none
    enrich_completed_at := none
    created_at := now
    updated_at := now }

/-- The `DO UPDATE` arm of the upsert: `episode_url =
COALESCE(excluded.episode_url, episode_url)`, `guid =
COALESCE(excluded.guid, guid)`, `updated_at = CURRENT_TIMESTAMP`. -/
def upsertRow (episode_url guid : Option String) (now : Nat)
    (e : Episode) : Episode :=
  { e with episode_url := episode_url <|> e.episode_url
           guid := guid <|> e.guid
           updated_at := now }

/-- `ProgressDB.add_episode` (`progress.py` lines 125-158):
`INSERT ... ON CONFLICT(podcast_name, episode_title) DO UPDATE SET
episode_url = COALESCE(excluded.episode_url, episode_url),
guid = COALESCE(excluded.guid, guid), updated_at = CURRENT_TIMESTAMP
RETURNING id`.  Returns the row id together with the new store. -/
def ProgressDB.add_episode (db : ProgressDB) (pn et : String)
    (episode_url : Option String) (guid : Option String) (now : Nat) :
    Nat × ProgressDB :=
  match db.episodes.find? (episodeKey pn et) with
  | some (i, _) =>
      (i, { db with
              episodes := db.episodes.map (fun p =>
                if p.1 = i then (p.1, upsertRow episode_url guid now p.2)
                else p) })
  | none =>
      (db.next_id,
       { db with
           episodes := db.episodes ++
             [(db.next_id, newEpisode pn et episode_url guid now)]
           next_id := db.next_id + 1 })

/-- First value bound to a keyword in the `**kwargs` dict of
`update_status` (a Python dict has unique keys, so the first match is
the only one).  `some v` means the key was passed with SQL value `v`
(where `v = none` is SQL `NULL`). -/
def lookupKw (k : String) (kwargs : List (String × Option String)) :
    Option (Option String) :=
  (kwargs.find? (fun p => p.1 == k)).map (·.2)

/-- Python truthiness of the `error_message` argument
(`if error_message:` at `progress.py` line 214): `None` and the empty
string are falsy. -/
def errTruthy : Option String → Bool
  | some s => !(s == "")
  | none => false

/-- The row-level effect of `ProgressDB.update_status` (`progress.py`
lines 194-247): sets `status` and `updated_at` unconditionally, sets
`error_message` only when the argument is truthy, sets the single
started/completed timestamp column selected by the new status
(`timestamp_map`, lines 219-226; no column for `pending`, `failed`,
`skipped`), and sets whichever of `audio_path`, `transcript_path`,
`enrichment_path` appear in `kwargs` (the whitelist at line 235); all
other keywords are ignored. -/
def applyUpdateStatus (e : Episode) (status : EpisodeStatus)
    (error_message : Option String)
    (kwargs : List (String × Option String)) (now : Nat) : Episode :=
  { e with
      status := status
      updated_at := now
      error_message :=
        if errTruthy error_message then error_message else e.error_message
      download_started_at :=
        if status == .downloading then some now else e.download_started_at
      download_completed_at :=
        if status == .downloaded then some now else e.download_completed_at
      transcribe_started_at :=
        if status == .transcribing then some now else e.transcribe_started_at
      transcribe_completed_at :=
        if status == .transcribed then some now else e.transcribe_completed_at
      enrich_started_at :=
        if status == .enriching then some now else e.enrich_started_at
      enrich_completed_at :=
        if status == .enriched then some now else e.enrich_completed_at
      audio_path := (lookupKw "audio_path" kwargs).getD e.audio_path
      transcript_path :=
        (lookupKw "transcript_path" kwargs).getD e.transcript_path
      enrichment_path :=
        (lookupKw "enrichment_path" kwargs).getD e.enrichment_path }

/-- `ProgressDB.update_status` (`progress.py` lines 194-247):
`UPDATE episodes SET ... WHERE id = ?`.  The function is total: the
source performs no transition validation and raises no error. -/
def ProgressDB.update_status (db : ProgressDB) (episode_id : Nat)
    (status : EpisodeStatus) (error_message : Option String)
    (kwargs : List (String × Option String)) (now : Nat) : ProgressDB :=
  { db with
      episodes := db.episodes.map (fun p =>
        if p.1 = episode_id then
          (p.1, applyUpdateStatus p.2 status error_message kwargs now)
        else p) }

/-- `ProgressDB.acquire_lock` (`progress.py` lines 437-459): a bare
`INSERT INTO processing_locks` whose primary-key constraint (one lock
per episode) and foreign-key constraint (the episode must exist; the
connection runs `PRAGMA foreign_keys=ON`) both surface as
`sqlite3.IntegrityError`, returned as `False`. -/
def ProgressDB.acquire_lock (db : ProgressDB) (episode_id : Nat)
    (worker_id : String) (now : Nat) : Bool × ProgressDB :=
  if db.episodes.any (fun p => p.1 == episode_id) &&
     !(db.locks.any (fun l => l.episode_id == episode_id)) then
    (true, { db with locks := db.locks ++ [⟨episode_id, worker_id, now⟩] })
  else
    (false, db)

/-- `ProgressDB.release_lock` (`progress.py` lines 461-480):
`DELETE FROM processing_locks WHERE episode_id = ? AND worker_id = ?`,
returning `rowcount > 0`. -/
def ProgressDB.release_lock (db : ProgressDB) (episode_id : Nat)
    (worker_id : String) : Bool × ProgressDB :=
  let kept := db.locks.filter (fun l =>
    !(l.episode_id == episode_id && l.worker_id == worker_id))
  (decide (kept.length < db.locks.length), { db with locks := kept })

/-- `ProgressDB.cleanup_stale_locks` (`progress.py` lines 482-500):
deletes locks with `locked_at` strictly before the cutoff instant
(`datetime('now', '-60 minutes')` for the default call). -/
def ProgressDB.cleanup_stale_locks (db : ProgressDB) (cutoff : Nat) :
    Nat × ProgressDB :=
  let kept := db.locks.filter (fun l => !(l.locked_at < cutoff))
  (db.locks.length - kept.length, { db with locks := kept })

/-- One of the three bulk `UPDATE episodes SET status = ...,
updated_at = CURRENT_TIMESTAMP WHERE status = ...` statements of
`reset_stuck_episodes`; returns the rowcount and the new table. -/
def bulkDemote (l : List (Nat × Episode)) (src dst : EpisodeStatus)
    (now : Nat) : Nat × List (Nat × Episode) :=
  (l.countP (fun p => p.2.status == src),
   l.map (fun p =>
     if p.2.status == src then
       (p.1, { p.2 with status := dst, updated_at := now })
     else p))

/-- `ProgressDB.reset_stuck_episodes` (`progress.py` lines 504-554):
`downloading → pending`, then `transcribing → downloaded`, then
`enriching → transcribed`, returning the total rowcount; finally calls
`cleanup_stale_locks` (its cutoff instant passed explicitly here). -/
def ProgressDB.reset_stuck_episodes (db : ProgressDB) (now : Nat)
    (cutoff : Nat) : Nat × ProgressDB :=
  let r1 := bulkDemote db.episodes .downloading .pending now
  let r2 := bulkDemote r1.2 .transcribing .downloaded now
  let r3 := bulkDemote r2.2 .enriching .transcribed now
  let db1 := { db with episodes := r3.2 }
  let db2 := (db1.cleanup_stale_locks cutoff).2
  (r1.1 + r2.1 + r3.1, db2)

/-! ## Feed progress aggregator (`scripts/monitor/feed_analyzer.py`) -/

/-- The raw per-feed counts feeding one iteration of the loop of
`get_feed_progress` (`feed_analyzer.py` lines 228-294): the filesystem
scan results, the cached RSS total and the static book score.  Counts
are modelled as `Int` so that the signed arithmetic on `remaining`
matches the source. -/
structure RawFeedData where
  name : String
  /-- number of audio files larger than 100KB in the feed's directory -/
  rawDownloaded : Int
  /-- `rss_totals.get(name)` -/
  rssTotal : Option Int
  /-- number of `*.txt` transcripts found for the feed -/
  rawTranscribed : Int
  /-- number of `*_enriched.json` files found for the feed -/
  rawEnriched : Int
  /-- `book_scores.get(name)` -/
  bookScore : Option Int
  deriving DecidableEq, Repr

/-- One element of the list returned by `get_feed_progress`
(`feed_analyzer.py` lines 278-294); the display-only float percentage
fields (`dl_pct`, `tr_pct`, `en_pct`) are omitted. -/
structure FeedEntry where
  name : String
  total : Int
  downloaded : Int
  transcribed : Int
  enriched : Int
  remaining : Int
  trans_remaining : Int
  enrich_remaining : Int
  book_score : Int
  is_dl_complete : Bool
  is_tr_complete : Bool
  is_en_complete : Bool
  deriving DecidableEq, Repr

/-- The loop body of `get_feed_progress` (`feed_analyzer.py` lines
228-294) for one feed: skips feeds with no valid downloads
(`if downloaded == 0: continue`, line 243), defaults the total to the
downloaded count (line 247), computes `enrich_remaining` from the raw
transcript count (line 269) and only then caps `transcribed` at
`downloaded` (lines 275-276); `enriched` is never capped. -/
def getFeedEntry (r : RawFeedData) : Option FeedEntry :=
  let downloaded := r.rawDownloaded
  if downloaded = 0 then none
  else
    let total := r.rssTotal.getD downloaded
    let remaining := total - downloaded
    let enrich_remaining := r.rawTranscribed - r.rawEnriched
    let transcribed := min r.rawTranscribed downloaded
    some { name := r.name
           total := total
           downloaded := downloaded
           transcribed := transcribed
           enriched := r.rawEnriched
           remaining := remaining
           trans_remaining := downloaded - transcribed
           enrich_remaining := enrich_remaining
           book_score := r.bookScore.getD 3
           is_dl_complete := downloaded == total
           is_tr_complete := transcribed == downloaded && downloaded > 0
           is_en_complete := r.rawEnriched == transcribed && transcribed > 0 }

/-! ## Monitor constants (`scripts/monitor/config.py`) -/

/-- `STALL_THRESHOLD = 5` (`config.py` line 14). -/
def STALL_THRESHOLD : Nat := 5

/-- `MIN_EPISODES_FOR_MULTIPLE_WORKERS = 50` (`config.py` line 17). -/
def MIN_EPISODES_FOR_MULTIPLE_WORKERS : Int := 50

/-- `MANUAL_FAILOVER_THRESHOLD = 3` (`config.py` line 20). -/
def MANUAL_FAILOVER_THRESHOLD : Nat := 3

/-- `PATREON_BASE_DELAY = 60` (`config.py` line 23). -/
def PATREON_BASE_DELAY : Int := 60

/-- `PATREON_MAX_DELAY = 1800` (`config.py` line 24). -/
def PATREON_MAX_DELAY : Int := 1800

/-! ## Stall detector (`scripts/monitor/main.py` lines 98-121) -/

/-- The per-feed history update (`main.py` lines 108-111): append the
sampled `downloaded` count, then drop the oldest sample once the
buffer exceeds `STALL_THRESHOLD`. -/
def updateHistory (hist : List Int) (downloaded : Int) : List Int :=
  let h := hist ++ [downloaded]
  if STALL_THRESHOLD < h.length then h.drop 1 else h

/-- `len(set(xs)) == 1`: the list is nonempty and all its elements are
equal. -/
def allEqual : List Int → Bool
  | [] => false
  | x :: xs => xs.all (fun y => y == x)

/-- `completion_pct < 99.0` where
`completion_pct = downloaded / total * 100 if total > 0 else 100`
(`main.py` line 113), written over exact integer arithmetic. -/
def completionLt99 (downloaded total : Int) : Bool :=
  if 0 < total then decide (downloaded * 100 < 99 * total) else false

/-- The stall condition of `main.py` lines 114-120, evaluated after the
history has been updated for the tick. -/
def isStalled (hist : List Int) (downloaded total remaining : Int)
    (is_dl_complete : Bool) : Bool :=
  decide (STALL_THRESHOLD ≤ hist.length) &&
  allEqual hist &&
  !is_dl_complete &&
  decide (0 < remaining) &&
  decide (5 < remaining) &&
  completionLt99 downloaded total &&
  decide (downloaded < total)

/-! ## Patreon backoff / manual failover (`scripts/monitor/main.py`) -/

/-- The per-feed entry of the `backoff_state` dict (`main.py` lines
61-70).  `time.time()` instants are modelled as `Int`. -/
structure BackoffState where
  failure_count : Nat
  last_attempt : Option Int
  base_delay : Int
  max_delay : Int
  manual_mode : Bool
  manual_pid : Option Nat
  deriving DecidableEq, Repr

/-- The initial `backoff_state` entry for `TRUE ANON TRUTH FEED`
(`main.py` lines 62-69). -/
def initialBackoffState : BackoffState :=
  { failure_count := 0
    last_attempt := none
    base_delay := PATREON_BASE_DELAY
    max_delay := PATREON_MAX_DELAY
    manual_mode := false
    manual_pid := none }

/-- The failure-observation block of the tick (`main.py` lines
124-158).  It runs only when the feed has a recorded attempt, was
tracked as active and its worker is no longer running
(`in_active_dl && !in_dl_feeds`).  On an observed failure the count is
bumped and, at `MANUAL_FAILOVER_THRESHOLD`, manual mode is entered and
the manual-download-assistant process is spawned (`launch_pid` is its
pid, `none` when `subprocess.Popen` raised); on an observed success
the count and manual flag are cleared.  Returns the new state and
whether the manual process was launched this tick. -/
def observeFeed (st : BackoffState) (in_active_dl in_dl_feeds : Bool)
    (feed_failed : Bool) (launch_pid : Option Nat) :
    BackoffState × Bool :=
  if st.last_attempt.isSome && in_active_dl && !in_dl_feeds then
    if feed_failed then
      let fc := st.failure_count + 1
      if decide (MANUAL_FAILOVER_THRESHOLD ≤ fc) && !st.manual_mode then
        ({ st with failure_count := fc
                   manual_mode := true
                   manual_pid := launch_pid }, true)
      else
        ({ st with failure_count := fc }, false)
    else
      ({ st with failure_count := 0, manual_mode := false }, false)
  else (st, false)

/-- The manual-mode guard of the launch loop (`main.py` lines
170-178): if the feed is in manual mode with a live assistant pid the
feed is skipped (`none`); if the pid is recorded but dead
(`os.kill(pid, 0)` raises `OSError`) manual mode is cleared and the
failure count reset before continuing; with no recorded pid the guard
falls through with the state unchanged. -/
def manualStep (st : BackoffState) (alive : Nat → Bool) :
    Option BackoffState :=
  if st.manual_mode then
    match st.manual_pid with
    | some pid =>
        if alive pid then none
        else some { st with manual_mode := false
                            manual_pid := none
                            failure_count := 0 }
    | none => some st
  else some st

/-- The exponential-backoff guard of the launch loop (`main.py` lines
180-187): with a recorded attempt and a positive failure count the
feed is skipped while
`now - last_attempt < min(base_delay * 2^(failure_count - 1), max_delay)`. -/
def backoffSkip (st : BackoffState) (now : Int) : Bool :=
  match st.last_attempt with
  | some t =>
      if 0 < st.failure_count then
        let delay := min (st.base_delay * 2 ^ (st.failure_count - 1))
                         st.max_delay
        decide (now - t < delay)
      else false
  | none => false

/-- The per-tick launch decision for the backoff-tracked feed inside
the download-worker loop (`main.py` lines 164-199), assuming the feed
is among the incomplete candidates and a downloader slot is free.
Returns whether a worker launch was attempted together with the
resulting backoff state; `worker_pid` is the result of
`launch_worker` (`none` when the launch failed, in which case
`last_attempt` is not recorded). -/
def dlDecision (st : BackoffState) (in_active_dl in_dl_feeds : Bool)
    (alive : Nat → Bool) (now : Int) (worker_pid : Option Nat) :
    Bool × BackoffState :=
  if in_active_dl || in_dl_feeds then (false, st)
  else
    match manualStep st alive with
    | none => (false, st)
    | some st1 =>
        if backoffSkip st1 now then (false, st1)
        else
          match worker_pid with
          | some _ => (true, { st1 with last_attempt := some now })
          | none => (true, st1)

/-! ## Derived query helpers -/

/-- Status of the row with the given id, as `get_episode_by_id` reports it. -/
def ProgressDB.statusOf (db : ProgressDB) (episode_id : Nat) :
    Option EpisodeStatus :=
  (db.get_episode_by_id episode_id).map Episode.status

/-- Number of lock rows held for a given item. -/
def lockCount (db : ProgressDB) (episode_id : Nat) : Nat :=
  db.locks.countP (fun l => l.episode_id == episode_id)

/-! ## Spec-side definitions

These definitions follow the specification's words, not the source; they
exist to compare the spec's claimed behaviour with the embedded code. -/

/-- Modelled from the spec: position of a status in the strict linear
pipeline `Pending → Downloading → Downloaded → Transcribing →
Transcribed → Enriching → Enriched`; the two side-exits `Failed` and
`Skipped` carry no pipeline position. -/
def pipelineStage : EpisodeStatus → Option Nat
  | .pending => some 0
  | .downloading => some 1
  | .downloaded => some 2
  | .transcribing => some 3
  | .transcribed => some 4
  | .enriching => some 5
  | .enriched => some 6
  | .failed => none
  | .skipped => none

/-- Modelled from the spec: `new_status` is reachable from the current
status when it moves strictly forward in the pipeline order, or is one
of the side-exits `Failed`/`Skipped` (reachable from any state). -/
def specReachable (cur new : EpisodeStatus) : Bool :=
  new == .failed || new == .skipped ||
    (match pipelineStage cur, pipelineStage new with
     | some i, some j => decide (i < j)
     | _, _ => false)

/-- The in-progress statuses demoted by `reset_stuck_episodes`. -/
def inProgress (s : EpisodeStatus) : Bool :=
  s == .downloading || s == .transcribing || s == .enriching

/-- The one-stage-backward demotion performed by `reset_stuck_episodes`
on the in-progress statuses; identity everywhere else. -/
def demoteStatus : EpisodeStatus → EpisodeStatus
  | .downloading => .pending
  | .transcribing => .downloaded
  | .enriching => .transcribed
  | s => s

/-- The net per-row effect `reset_stuck_episodes` is claimed to have:
demote an in-progress status one stage backward (touching
`updated_at`), leave every other row untouched. -/
def demoteRow (now : Nat) (p : Nat × Episode) : Nat × Episode :=
  if inProgress p.2.status then
    (p.1, { p.2 with status := demoteStatus p.2.status, updated_at := now })
  else p

/-! ## Concrete instances used by counterexamples and witnesses -/

/-- An episode row that has completed the whole pipeline. -/
def epEnriched : Episode :=
  { podcast_name := "PodX"
    episode_title := "Ep1"
    episode_url := some "https://example.com/ep1.mp3"
    guid := none
    status := .enriched
    error_message := none
    audio_path := some "a.mp3"
    transcript_path := some "t.txt"
    enrichment_path := some "e.json"
    download_started_at := some 1
    download_completed_at := some 2
    transcribe_started_at := some 3
    transcribe_completed_at := some 4
    enrich_started_at := some 5
    enrich_completed_at := some 6
    created_at := 0
    updated_at := 6 }

/-- A store holding one episode that has completed the whole pipeline. -/
def dbEnriched : ProgressDB :=
  { episodes := [(1, epEnriched)]
    locks := []
    next_id := 2 }

/-- An empty store. -/
def dbEmpty : ProgressDB := { episodes := [], locks := [], next_id := 1 }

/-- Raw feed counts whose enriched-file count exceeds the transcript
count (e.g. transcripts deleted while their enrichment JSONs remain). -/
def c4raw : RawFeedData :=
  { name := "FeedA"
    rawDownloaded := 1
    rssTotal := none
    rawTranscribed := 0
    rawEnriched := 2
    bookScore := none }

/-- Raw feed counts where the external RSS total (1) is smaller than the
observed downloaded count (2): an upstream catalog that shrank. -/
def c5raw : RawFeedData :=
  { name := "FeedB"
    rawDownloaded := 2
    rssTotal := some 1
    rawTranscribed := 0
    rawEnriched := 0
    bookScore := none }

/-- A healthy raw feed used by witnesses. -/
def c45witnessRaw : RawFeedData :=
  { name := "FeedC"
    rawDownloaded := 4
    rssTotal := some 4
    rawTranscribed := 3
    rawEnriched := 2
    bookScore := some 7 }

/-- The feed-progress entry computed from `c45witnessRaw`. -/
def c45entry : FeedEntry :=
  { name := "FeedC"
    total := 4
    downloaded := 4
    transcribed := 3
    enriched := 2
    remaining := 0
    trans_remaining := 1
    enrich_remaining := 1
    book_score := 7
    is_dl_complete := true
    is_tr_complete := false
    is_en_complete := false }

/-- Backoff state after exactly one observed failure at instant 0. -/
def backoffOneFailure : BackoffState :=
  { failure_count := 1
    last_attempt := some 0
    base_delay := PATREON_BASE_DELAY
    max_delay := PATREON_MAX_DELAY
    manual_mode := false
    manual_pid := none }

/-- Backoff state in manual mode with a recorded assistant pid. -/
def backoffManual : BackoffState :=
  { failure_count := 3
    last_attempt := some 0
    base_delay := PATREON_BASE_DELAY
    max_delay := PATREON_MAX_DELAY
    manual_mode := true
    manual_pid := some 9 }

/-- Backoff state two observed failures in, not yet in manual mode. -/
def backoffTwoFailures : BackoffState :=
  { failure_count := 2
    last_attempt := some 0
    base_delay := PATREON_BASE_DELAY
    max_delay := PATREON_MAX_DELAY
    manual_mode := false
    manual_pid := none }

/-! ## Helper lemmas -/

theorem find?_map_eq {α : Type} (l : List α) (f : α → α) (p : α → Bool)
    (hf : ∀ a, p (f a) = p a) :
    (l.map f).find? p = (l.find? p).map f := by
  induction l with
  | nil => rfl
  | cons a l ih =>
      by_cases h : p a = true
      · rw [List.map_cons, List.find?_cons_of_pos _ (by rw [hf]; exact h),
          List.find?_cons_of_pos _ h]
        rfl
      · rw [List.map_cons, List.find?_cons_of_neg _ (by rw [hf]; exact h),
          List.find?_cons_of_neg _ h, ih]

theorem countP_map_eq {α : Type} (l : List α) (f : α → α) (p : α → Bool)
    (hf : ∀ a, p (f a) = p a) :
    (l.map f).countP p = l.countP p := by
  induction l with
  | nil => rfl
  | cons a l ih => simp [List.countP_cons, hf, ih]

theorem reset_episodes_eq (db : ProgressDB) (now cutoff : Nat) :
    (db.reset_stuck_episodes now cutoff).2.episodes =
      db.episodes.map (demoteRow now) := by
  show ((db.episodes.map _).map _).map _ = _
  rw [List.map_map, List.map_map]
  refine List.map_congr_left (fun p _ => ?_)
  obtain ⟨i, e⟩ := p
  obtain ⟨pn, et, url, gd, st, em, ap, tp, ep, a1, a2, a3, a4, a5, a6, ca, ua⟩ := e
  cases st <;> rfl

theorem countP_inProgress_split (l : List (Nat × Episode)) :
    l.countP (fun p => p.2.status == .downloading) +
      l.countP (fun p => p.2.status == .transcribing) +
      l.countP (fun p => p.2.status == .enriching) =
      l.countP (fun p => inProgress p.2.status) := by
  induction l with
  | nil => rfl
  | cons p l ih =>
      simp only [List.countP_cons]
      cases h : p.2.status <;> simp [inProgress, h] at ih ⊢ <;> omega

theorem reset_count_eq (db : ProgressDB) (now cutoff : Nat) :
    (db.reset_stuck_episodes now cutoff).1 =
      db.episodes.countP (fun p => inProgress p.2.status) := by
  show db.episodes.countP _ + (db.episodes.map _).countP _ +
      ((db.episodes.map _).map _).countP _ = _
  rw [countP_map_eq _ _ _ (fun p => ?_), List.map_map,
    countP_map_eq _ _ _ (fun p => ?_), countP_inProgress_split]
  · obtain ⟨i, e⟩ := p
    cases h : e.status <;> simp [h]
  · obtain ⟨i, e⟩ := p
    cases h : e.status <;> simp [h]

theorem demoteRow_not_inProgress (now : Nat) (p : Nat × Episode) :
    inProgress ((demoteRow now p).2.status) = false := by
  obtain ⟨i, e⟩ := p
  obtain ⟨pn, et, url, gd, st, em, ap, tp, ep, a1, a2, a3, a4, a5, a6, ca, ua⟩ := e
  cases st <;> rfl

theorem demoteRow_idem (n1 n2 : Nat) (p : Nat × Episode) :
    demoteRow n2 (demoteRow n1 p) = demoteRow n1 p := by
  obtain ⟨i, e⟩ := p
  obtain ⟨pn, et, url, gd, st, em, ap, tp, ep, a1, a2, a3, a4, a5, a6, ca, ua⟩ := e
  cases st <;> rfl

/-! ## C3: crash recovery (`reset_stuck_episodes`) -/

/-- C3: `reset_stuck_episodes` demotes every item in an in-progress
status exactly one stage backward (`Downloading→Pending`,
`Transcribing→Downloaded`, `Enriching→Transcribed`), returns the
number of demoted items, leaves every item in any other status
untouched (in particular a `Downloaded` item stays `Downloaded`), and
is idempotent: a second call demotes zero items and leaves every
item's row exactly as the first call left it. -/
theorem C3_recover_stuck_demotion_idempotent :
    (∀ (db : ProgressDB) (now cutoff : Nat),
       (db.reset_stuck_episodes now cutoff).2.episodes =
         db.episodes.map (demoteRow now)) ∧
    (∀ (db : ProgressDB) (now cutoff : Nat),
       (db.reset_stuck_episodes now cutoff).1 =
         db.episodes.countP (fun p => inProgress p.2.status)) ∧
    (∀ (db : ProgressDB) (now cutoff : Nat) (p : Nat × Episode),
       p ∈ db.episodes → inProgress p.2.status = false →
       p ∈ (db.reset_stuck_episodes now cutoff).2.episodes) ∧
    (∀ (db : ProgressDB) (n1 c1 n2 c2 : Nat),
       ((db.reset_stuck_episodes n1 c1).2.reset_stuck_episodes n2 c2).1 = 0 ∧
       ((db.reset_stuck_episodes n1 c1).2.reset_stuck_episodes n2 c2).2.episodes =
         (db.reset_stuck_episodes n1 c1).2.episodes) := by
  refine ⟨reset_episodes_eq, reset_count_eq, ?_, ?_⟩
  · intro db now cutoff p hp hnp
    rw [reset_episodes_eq]
    refine List.mem_map.mpr ⟨p, hp, ?_⟩
    simp [demoteRow, hnp]
  · intro db n1 c1 n2 c2
    constructor
    · rw [reset_count_eq, reset_episodes_eq, List.countP_map]
      refine List.countP_eq_zero.mpr (fun p _ => ?_)
      simp [Function.comp, demoteRow_not_inProgress]
    · rw [reset_episodes_eq, reset_episodes_eq, List.map_map]
      exact List.map_congr_left (fun p _ => demoteRow_idem n1 n2 p)

/-- Witness for C3 at a concrete store: an `Enriched` row is untouched
by crash recovery (Scenario A's stable-state case). -/
theorem C3_recover_stuck_demotion_idempotent_witness :
    (1, epEnriched) ∈ (dbEnriched.reset_stuck_episodes 9 0).2.episodes :=
  C3_recover_stuck_demotion_idempotent.2.2.1 dbEnriched 9 0 (1, epEnriched)
    (by decide) (by decide)

/-! ## C1: status transitions are not validated -/

theorem updateStatus_fst_preserved (episode_id : Nat) (st : EpisodeStatus)
    (em : Option String) (kw : List (String × Option String)) (now : Nat)
    (q : Nat × Episode) :
    ((fun p => if p.1 = episode_id then
        (p.1, applyUpdateStatus p.2 st em kw now) else p) q).1 = q.1 := by
  obtain ⟨i, e⟩ := q
  by_cases h : i = episode_id <;> simp [h]

/-- C1 (counterexample): an item already `Enriched` is moved to
`Downloading` — a transition that violates the strict pipeline order —
yet `update_status` applies it and changes the row: no
`InvalidTransition` error exists anywhere in the store (the operation
is a total function). -/
theorem C1_counterexample :
    specReachable .enriched .downloading = false ∧
    dbEnriched.statusOf 1 = some .enriched ∧
    (dbEnriched.update_status 1 .downloading none [] 7).statusOf 1 =
      some .downloading ∧
    (dbEnriched.update_status 1 .downloading none [] 7).get_episode_by_id 1 ≠
      dbEnriched.get_episode_by_id 1 := by
  refine ⟨rfl, rfl, rfl, ?_⟩
  decide

/-- C1 (amended): `update_status` performs no reachability validation
at all: for every store, item and requested status — reachable or not —
it unconditionally sets the row's status to the requested status, and
it never signals any error (it is a total function on stores). -/
theorem C1_update_status_unvalidated :
    ∀ (db : ProgressDB) (episode_id : Nat) (st : EpisodeStatus)
      (em : Option String) (kw : List (String × Option String)) (now : Nat),
      (∀ p, p ∈ (db.update_status episode_id st em kw now).episodes →
         p.1 = episode_id → p.2.status = st) ∧
      ((db.statusOf episode_id).isSome = true →
         (db.update_status episode_id st em kw now).statusOf episode_id =
           some st) := by
  intro db episode_id st em kw now
  constructor
  · intro p hp h1
    obtain ⟨q, hq, rfl⟩ := List.mem_map.mp hp
    by_cases h : q.1 = episode_id
    · rw [if_pos h]
      rfl
    · rw [if_neg h] at h1
      exact absurd h1 h
  · intro hsome
    unfold ProgressDB.statusOf ProgressDB.get_episode_by_id at hsome ⊢
    rw [show (db.update_status episode_id st em kw now).episodes =
        db.episodes.map (fun p => if p.1 = episode_id then
          (p.1, applyUpdateStatus p.2 st em kw now) else p) from rfl]
    rw [find?_map_eq _ _ _ (fun q => by
      rw [updateStatus_fst_preserved episode_id st em kw now q])]
    obtain ⟨q, hq⟩ : ∃ q, db.episodes.find? (fun p => p.1 == episode_id) = some q := by
      cases hfind : db.episodes.find? (fun p => p.1 == episode_id) with
      | none => rw [hfind] at hsome; simp at hsome
      | some q => exact ⟨q, rfl⟩
    have hkey := List.find?_some hq
    rw [hq]
    show some ((if q.1 = episode_id then
        (q.1, applyUpdateStatus q.2 st em kw now) else q).2.status) = some st
    rw [if_pos (eq_of_beq hkey)]
    rfl

/-- Witness for C1's amended theorem at a concrete store. -/
theorem C1_update_status_unvalidated_witness :
    (dbEnriched.statusOf 1).isSome = true ∧
    (dbEnriched.update_status 1 .pending none [] 9).statusOf 1 =
      some .pending :=
  ⟨by decide,
   (C1_update_status_unvalidated dbEnriched 1 .pending none [] 9).2
     (by decide)⟩

/-! ## C10: frame effect of `update_status` -/

/-- C10: `update_status` touches only the row with the given id, and
within it only: `status`, `updated_at`, `error_message` (only when a
non-empty message is passed), the single started/completed timestamp
column selected by the new status (none for `pending`, `failed`,
`skipped`), and whichever of `audio_path` / `transcript_path` /
`enrichment_path` are explicitly passed; keywords outside that
whitelist are ignored, and every other column and row is unchanged. -/
theorem C10_update_status_frame :
    (∀ (db : ProgressDB) (episode_id : Nat) st em kw now p,
       p ∈ db.episodes → p.1 ≠ episode_id →
       p ∈ (db.update_status episode_id st em kw now).episodes) ∧
    (∀ (db : ProgressDB) (episode_id : Nat) st em kw now p,
       p ∈ (db.update_status episode_id st em kw now).episodes →
       p ∈ db.episodes ∨
         (p.1 = episode_id ∧ ∃ e, (episode_id, e) ∈ db.episodes ∧
            p.2 = applyUpdateStatus e st em kw now)) ∧
    (∀ (e : Episode) st em kw now,
       let e' := applyUpdateStatus e st em kw now
       e'.podcast_name = e.podcast_name ∧
       e'.episode_title = e.episode_title ∧
       e'.episode_url = e.episode_url ∧
       e'.guid = e.guid ∧
       e'.created_at = e.created_at ∧
       e'.status = st ∧
       e'.updated_at = now ∧
       (em = none → e'.error_message = e.error_message) ∧
       (em = some "" → e'.error_message = e.error_message) ∧
       (∀ s, em = some s → s ≠ "" → e'.error_message = some s) ∧
       (lookupKw "audio_path" kw = none → e'.audio_path = e.audio_path) ∧
       (∀ v, lookupKw "audio_path" kw = some v → e'.audio_path = v) ∧
       (lookupKw "transcript_path" kw = none →
          e'.transcript_path = e.transcript_path) ∧
       (∀ v, lookupKw "transcript_path" kw = some v →
          e'.transcript_path = v) ∧
       (lookupKw "enrichment_path" kw = none →
          e'.enrichment_path = e.enrichment_path) ∧
       (∀ v, lookupKw "enrichment_path" kw = some v →
          e'.enrichment_path = v) ∧
       (st = .pending ∨ st = .failed ∨ st = .skipped →
          e'.download_started_at = e.download_started_at ∧
          e'.download_completed_at = e.download_completed_at ∧
          e'.transcribe_started_at = e.transcribe_started_at ∧
          e'.transcribe_completed_at = e.transcribe_completed_at ∧
          e'.enrich_started_at = e.enrich_started_at ∧
          e'.enrich_completed_at = e.enrich_completed_at) ∧
       (st = .downloading →
          e'.download_started_at = some now ∧
          e'.download_completed_at = e.download_completed_at ∧
          e'.transcribe_started_at = e.transcribe_started_at ∧
          e'.transcribe_completed_at = e.transcribe_completed_at ∧
          e'.enrich_started_at = e.enrich_started_at ∧
          e'.enrich_completed_at = e.enrich_completed_at) ∧
       (st = .downloaded →
          e'.download_started_at = e.download_started_at ∧
          e'.download_completed_at = some now ∧
          e'.transcribe_started_at = e.transcribe_started_at ∧
          e'.transcribe_completed_at = e.transcribe_completed_at ∧
          e'.enrich_started_at = e.enrich_started_at ∧
          e'.enrich_completed_at = e.enrich_completed_at) ∧
       (st = .transcribing →
          e'.download_started_at = e.download_started_at ∧
          e'.download_completed_at = e.download_completed_at ∧
          e'.transcribe_started_at = some now ∧
          e'.transcribe_completed_at = e.transcribe_completed_at ∧
          e'.enrich_started_at = e.enrich_started_at ∧
          e'.enrich_completed_at = e.enrich_completed_at) ∧
       (st = .transcribed →
          e'.download_started_at = e.download_started_at ∧
          e'.download_completed_at = e.download_completed_at ∧
          e'.transcribe_started_at = e.transcribe_started_at ∧
          e'.transcribe_completed_at = some now ∧
          e'.enrich_started_at = e.enrich_started_at ∧
          e'.enrich_completed_at = e.enrich_completed_at) ∧
       (st = .enriching →
          e'.download_started_at = e.download_started_at ∧
          e'.download_completed_at = e.download_completed_at ∧
          e'.transcribe_started_at = e.transcribe_started_at ∧
          e'.transcribe_completed_at = e.transcribe_completed_at ∧
          e'.enrich_started_at = some now ∧
          e'.enrich_completed_at = e.enrich_completed_at) ∧
       (st = .enriched →
          e'.download_started_at = e.download_started_at ∧
          e'.download_completed_at = e.download_completed_at ∧
          e'.transcribe_started_at = e.transcribe_started_at ∧
          e'.transcribe_completed_at = e.transcribe_completed_at ∧
          e'.enrich_started_at = e.enrich_started_at ∧
          e'.enrich_completed_at = some now)) ∧
    (∀ (e : Episode) st em kw kw2 now,
       lookupKw "audio_path" kw = lookupKw "audio_path" kw2 →
       lookupKw "transcript_path" kw = lookupKw "transcript_path" kw2 →
       lookupKw "enrichment_path" kw = lookupKw "enrichment_path" kw2 →
       applyUpdateStatus e st em kw now = applyUpdateStatus e st em kw2 now) := by
  refine ⟨?_, ?_, ?_, ?_⟩
  · intro db episode_id st em kw now p hp hne
    exact List.mem_map.mpr ⟨p, hp, by rw [if_neg hne]⟩
  · intro db episode_id st em kw now p hp
    obtain ⟨q, hq, rfl⟩ := List.mem_map.mp hp
    by_cases h : q.1 = episode_id
    · refine Or.inr ?_
      rw [if_pos h]
      exact ⟨h, q.2, by rw [← h]; exact hq, rfl⟩
    · rw [if_neg h]
      exact Or.inl hq
  · intro e st em kw now
    refine ⟨rfl, rfl, rfl, rfl, rfl, rfl, rfl, ?_, ?_, ?_, ?_, ?_, ?_, ?_,
      ?_, ?_, ?_, ?_, ?_, ?_, ?_, ?_, ?_⟩
    · intro h; subst h; rfl
    · intro h; subst h; rfl
    · intro s hs hne
      subst hs
      show (if errTruthy (some s) then some s else e.error_message) = some s
      simp [errTruthy, hne]
    · intro h
      show (lookupKw "audio_path" kw).getD e.audio_path = e.audio_path
      rw [h]
      rfl
    · intro v h
      show (lookupKw "audio_path" kw).getD e.audio_path = v
      rw [h]
      rfl
    · intro h
      show (lookupKw "transcript_path" kw).getD e.transcript_path =
        e.transcript_path
      rw [h]
      rfl
    · intro v h
      show (lookupKw "transcript_path" kw).getD e.transcript_path = v
      rw [h]
      rfl
    · intro h
      show (lookupKw "enrichment_path" kw).getD e.enrichment_path =
        e.enrichment_path
      rw [h]
      rfl
    · intro v h
      show (lookupKw "enrichment_path" kw).getD e.enrichment_path = v
      rw [h]
      rfl
    · rintro (rfl | rfl | rfl) <;> exact ⟨rfl, rfl, rfl, rfl, rfl, rfl⟩
    · rintro rfl; exact ⟨rfl, rfl, rfl, rfl, rfl, rfl⟩
    · rintro rfl; exact ⟨rfl, rfl, rfl, rfl, rfl, rfl⟩
    · rintro rfl; exact ⟨rfl, rfl, rfl, rfl, rfl, rfl⟩
    · rintro rfl; exact ⟨rfl, rfl, rfl, rfl, rfl, rfl⟩
    · rintro rfl; exact ⟨rfl, rfl, rfl, rfl, rfl, rfl⟩
    · rintro rfl; exact ⟨rfl, rfl, rfl, rfl, rfl, rfl⟩
  · intro e st em kw kw2 now h1 h2 h3
    unfold applyUpdateStatus
    rw [h1, h2, h3]

/-- Witness for C10 at a concrete store: the unrelated row survives an
update of a different id, and an unlisted keyword is ignored. -/
theorem C10_update_status_frame_witness :
    (1, epEnriched) ∈
      (dbEnriched.update_status 2 .failed (some "boom") [] 11).episodes ∧
    applyUpdateStatus epEnriched .failed none
      [("not_a_column", some "x")] 11 =
      applyUpdateStatus epEnriched .failed none [] 11 := by
  constructor
  · exact C10_update_status_frame.1 dbEnriched 2 .failed (some "boom") [] 11
      (1, epEnriched) (by decide) (by decide)
  · exact C10_update_status_frame.2.2.2 epEnriched .failed
      none [("not_a_column", some "x")] [] 11 rfl rfl rfl

/-! ## C2: lock table mutual exclusion -/

theorem filter_not_length_lt_iff_any {α : Type} (l : List α) (p : α → Bool) :
    (l.filter (fun a => !(p a))).length < l.length ↔ l.any p = true := by
  induction l with
  | nil => simp
  | cons a l ih =>
      by_cases h : p a = true
      · simp only [List.filter_cons, h, Bool.not_true, List.any_cons,
          Bool.true_or, iff_true]
        exact Nat.lt_succ_of_le (List.length_filter_le _ l)
      · have h' := eq_false_of_ne_true h
        simp only [List.filter_cons, h', Bool.not_false, List.length_cons,
          List.any_cons, Bool.false_or, if_pos trivial]
        rw [Nat.succ_lt_succ_iff]
        exact ih

/-- C2: at most one lock row per item; `acquire_lock` succeeds exactly
when the item exists and holds no lock (all-or-nothing insert), so of
two sequential acquisitions by distinct workers starting from an
unlocked item exactly the first succeeds; `release_lock` deletes the
lock and returns true only when the caller holds it, and leaves the
store unchanged otherwise. -/
theorem C2_lock_exclusivity :
    (∀ (db : ProgressDB) (episode_id : Nat) (w : String) (now : Nat),
       db.episodes.any (fun p => p.1 == episode_id) = true →
       ((db.acquire_lock episode_id w now).1 = true ↔
         db.locks.any (fun l => l.episode_id == episode_id) = false)) ∧
    (∀ (db : ProgressDB) (episode_id : Nat) (w : String) (now : Nat),
       (db.acquire_lock episode_id w now).1 = true →
       (db.acquire_lock episode_id w now).2.locks =
         db.locks ++ [⟨episode_id, w, now⟩]) ∧
    (∀ (db : ProgressDB) (episode_id : Nat) (w : String) (now : Nat),
       (db.acquire_lock episode_id w now).1 = false →
       (db.acquire_lock episode_id w now).2 = db) ∧
    (∀ (db : ProgressDB) (episode_id : Nat) (w1 w2 : String) (n1 n2 : Nat),
       w1 ≠ w2 →
       db.episodes.any (fun p => p.1 == episode_id) = true →
       db.locks.any (fun l => l.episode_id == episode_id) = false →
       (db.acquire_lock episode_id w1 n1).1 = true ∧
       ((db.acquire_lock episode_id w1 n1).2.acquire_lock episode_id w2
         n2).1 = false) ∧
    (∀ (db : ProgressDB) (episode_id : Nat) (w : String),
       ((db.release_lock episode_id w).1 = true ↔
         db.locks.any
           (fun l => l.episode_id == episode_id && l.worker_id == w) =
           true)) ∧
    (∀ (db : ProgressDB) (episode_id : Nat) (w : String),
       (db.release_lock episode_id w).2.locks =
         db.locks.filter
           (fun l => !(l.episode_id == episode_id && l.worker_id == w))) ∧
    (∀ (db : ProgressDB) (episode_id : Nat) (w : String),
       (db.release_lock episode_id w).1 = false →
       (db.release_lock episode_id w).2 = db) ∧
    (∀ (db : ProgressDB) (episode_id : Nat) (w : String) (now id2 : Nat),
       lockCount db id2 ≤ 1 →
       lockCount (db.acquire_lock episode_id w now).2 id2 ≤ 1) ∧
    (∀ (db : ProgressDB) (episode_id : Nat) (w : String) (id2 : Nat),
       lockCount db id2 ≤ 1 →
       lockCount (db.release_lock episode_id w).2 id2 ≤ 1) := by
  have hacq : ∀ (db : ProgressDB) (episode_id : Nat) (w : String)
      (now : Nat),
      db.episodes.any (fun p => p.1 == episode_id) = true →
      db.locks.any (fun l => l.episode_id == episode_id) = false →
      db.acquire_lock episode_id w now =
        (true, { db with locks := db.locks ++ [⟨episode_id, w, now⟩] }) := by
    intro db episode_id w now hep hlock
    simp [ProgressDB.acquire_lock, hep, hlock]
  have hrel : ∀ (db : ProgressDB) (episode_id : Nat) (w : String),
      (db.release_lock episode_id w).1 = true ↔
      db.locks.any
        (fun l => l.episode_id == episode_id && l.worker_id == w) = true := by
    intro db episode_id w
    show decide _ = true ↔ _
    rw [decide_eq_true_iff]
    exact filter_not_length_lt_iff_any db.locks _
  refine ⟨?_, ?_, ?_, ?_, hrel, fun db episode_id w => rfl, ?_, ?_, ?_⟩
  · intro db episode_id w now hep
    by_cases h : db.locks.any (fun l => l.episode_id == episode_id) = true
    · simp [ProgressDB.acquire_lock, hep, h]
    · have h' := eq_false_of_ne_true h
      rw [hacq db episode_id w now hep h']
      simp [h']
  · intro db episode_id w now h
    unfold ProgressDB.acquire_lock at h ⊢
    split at h
    · next hc => rw [if_pos hc]
    · exact absurd h (by simp)
  · intro db episode_id w now h
    unfold ProgressDB.acquire_lock at h ⊢
    split at h
    · exact absurd h (by simp)
    · next hc => rw [if_neg hc]
  · intro db episode_id w1 w2 n1 n2 _ hep hlock
    rw [hacq db episode_id w1 n1 hep hlock]
    refine ⟨rfl, ?_⟩
    have hany : (db.locks ++
        [(⟨episode_id, w1, n1⟩ : LockRow)]).any
        (fun l => l.episode_id == episode_id) = true := by
      rw [List.any_append]
      simp
    simp [ProgressDB.acquire_lock, hany]
  · intro db episode_id w h
    have hne := (not_iff_not.mpr (hrel db episode_id w)).mp (by simp [h])
    have hall : ∀ l ∈ db.locks,
        (l.episode_id == episode_id && l.worker_id == w) = false := by
      intro l hl
      by_cases hx : (l.episode_id == episode_id && l.worker_id == w) = true
      · exact absurd (List.any_of_mem hl hx) hne
      · exact eq_false_of_ne_true hx
    show ({ db with locks := _ } : ProgressDB) = db
    rw [List.filter_eq_self.mpr (fun l hl => by rw [hall l hl]; rfl)]
  · intro db episode_id w now id2 hle
    by_cases hc : (db.episodes.any (fun p => p.1 == episode_id) &&
        !(db.locks.any (fun l => l.episode_id == episode_id))) = true
    · have hep : db.episodes.any (fun p => p.1 == episode_id) = true :=
        (Bool.and_eq_true _ _).mp hc |>.1
      have hlock : db.locks.any (fun l => l.episode_id == episode_id) =
          false := by
        have := (Bool.and_eq_true _ _).mp hc |>.2
        simpa using this
      rw [hacq db episode_id w now hep hlock]
      unfold lockCount at hle ⊢
      rw [List.countP_append]
      by_cases hid : (episode_id == id2) = true
      · have h0 : db.locks.countP (fun l => l.episode_id == id2) = 0 := by
          refine List.countP_eq_zero.mpr (fun l hl => ?_)
          have := List.any_eq_false.mp hlock l hl
          simp only [beq_iff_eq] at this hid ⊢
          rw [hid] at this
          exact this
        rw [h0]
        simp [hid]
      · have hid' := eq_false_of_ne_true hid
        simpa [hid'] using hle
    · unfold ProgressDB.acquire_lock
      rw [if_neg hc]
      exact hle
  · intro db episode_id w id2 hle
    unfold lockCount at hle ⊢
    show (db.locks.filter _).countP _ ≤ 1
    exact le_trans (List.Sublist.countP_le _ (List.filter_sublist db.locks))
      hle

/-- Witness for C2 at a concrete store: from an unlocked item, the
first acquisition succeeds, the second (by a different worker) fails,
and release by a non-holder leaves the store unchanged. -/
theorem C2_lock_exclusivity_witness :
    (dbEnriched.acquire_lock 1 "worker-1" 3).1 = true ∧
    ((dbEnriched.acquire_lock 1 "worker-1" 3).2.acquire_lock 1
      "worker-2" 4).1 = false := by
  exact C2_lock_exclusivity.2.2.2.1 dbEnriched 1 "worker-1" "worker-2" 3 4
    (by decide) (by decide) (by decide)

/-! ## C8: upsert idempotence (`add_episode`) -/

theorem episodeKey_upsert_invariant (pn et : String)
    (u g : Option String) (t : Nat) (i : Nat) (a : Nat × Episode) :
    episodeKey pn et
      (if a.1 = i then (a.1, upsertRow u g t a.2) else a) =
      episodeKey pn et a := by
  obtain ⟨j, e⟩ := a
  by_cases h : j = i <;> simp [h, episodeKey, upsertRow]

theorem add_episode_found (db : ProgressDB) (pn et : String)
    (u g : Option String) (t : Nat) (i : Nat) (e : Episode)
    (h : db.episodes.find? (episodeKey pn et) = some (i, e)) :
    (db.add_episode pn et u g t).1 = i ∧
    (db.add_episode pn et u g t).2.get_episode pn et =
      some (i, upsertRow u g t e) ∧
    (db.add_episode pn et u g t).2.episodes.countP (episodeKey pn et) =
      db.episodes.countP (episodeKey pn et) := by
  unfold ProgressDB.add_episode
  rw [h]
  refine ⟨rfl, ?_, ?_⟩
  · unfold ProgressDB.get_episode
    show (db.episodes.map _).find? _ = _
    rw [find?_map_eq _ _ _ (episodeKey_upsert_invariant pn et u g t i), h]
    show some (if i = i then (i, upsertRow u g t e) else (i, e)) = _
    rw [if_pos rfl]
  · exact countP_map_eq _ _ _ (episodeKey_upsert_invariant pn et u g t i)

theorem add_episode_not_found (db : ProgressDB) (pn et : String)
    (u g : Option String) (t : Nat)
    (h : db.episodes.find? (episodeKey pn et) = none) :
    (db.add_episode pn et u g t).1 = db.next_id ∧
    (db.add_episode pn et u g t).2.get_episode pn et =
      some (db.next_id, newEpisode pn et u g t) ∧
    (db.add_episode pn et u g t).2.episodes.countP (episodeKey pn et) =
      1 := by
  have hkey : episodeKey pn et (db.next_id, newEpisode pn et u g t) =
      true := by
    simp [episodeKey, newEpisode]
  unfold ProgressDB.add_episode
  rw [h]
  refine ⟨rfl, ?_, ?_⟩
  · unfold ProgressDB.get_episode
    show (db.episodes ++ _).find? _ = _
    rw [List.find?_append, h]
    show (List.find? _ _) = _
    rw [List.find?_cons_of_pos _ hkey]
  · show (db.episodes ++ _).countP _ = 1
    rw [List.countP_append,
      List.countP_eq_zero.mpr (fun a ha => List.find?_eq_none.mp h a ha)]
    simp [hkey]

/-- C8: two upserts with the same `(queue_name, item_title)` leave
exactly one row for that key, both return the same stable id, the
second call overwrites `url`/`guid` only with provided (non-NULL)
values, keeping the existing ones otherwise, and never changes the
row's status. -/
theorem C8_upsert_idempotent :
    ∀ (db : ProgressDB) (pn et : String) (u1 g1 : Option String)
      (t1 : Nat) (u2 g2 : Option String) (t2 : Nat),
      db.episodes.countP (episodeKey pn et) ≤ 1 →
      ((db.add_episode pn et u1 g1 t1).2.add_episode pn et u2 g2 t2).1 =
        (db.add_episode pn et u1 g1 t1).1 ∧
      ((db.add_episode pn et u1 g1 t1).2.add_episode pn et u2 g2
        t2).2.episodes.countP (episodeKey pn et) = 1 ∧
      ∃ e1 e2,
        (db.add_episode pn et u1 g1 t1).2.get_episode pn et =
          some ((db.add_episode pn et u1 g1 t1).1, e1) ∧
        ((db.add_episode pn et u1 g1 t1).2.add_episode pn et u2 g2
          t2).2.get_episode pn et =
          some ((db.add_episode pn et u1 g1 t1).1, e2) ∧
        e2.episode_url = (u2 <|> e1.episode_url) ∧
        e2.guid = (g2 <|> e1.guid) ∧
        e2.status = e1.status := by
  intro db pn et u1 g1 t1 u2 g2 t2 hle
  cases hfind : db.episodes.find? (episodeKey pn et) with
  | some q =>
      obtain ⟨i, e⟩ := q
      obtain ⟨h1, h2, h3⟩ := add_episode_found db pn et u1 g1 t1 i e hfind
      have h2' : (db.add_episode pn et u1 g1 t1).2.episodes.find?
          (episodeKey pn et) = some (i, upsertRow u1 g1 t1 e) := h2
      obtain ⟨k1, k2, k3⟩ :=
        add_episode_found (db.add_episode pn et u1 g1 t1).2 pn et u2 g2 t2
          i (upsertRow u1 g1 t1 e) h2'
      have hpos : 0 < db.episodes.countP (episodeKey pn et) :=
        List.countP_pos_iff.mpr
          ⟨(i, e), List.mem_of_find?_eq_some hfind, List.find?_some hfind⟩
      refine ⟨by rw [k1, h1], by rw [k3, h3]; omega,
        upsertRow u1 g1 t1 e, upsertRow u2 g2 t2 (upsertRow u1 g1 t1 e),
        by rw [h1]; exact h2, by rw [h1]; exact k2, rfl, rfl, rfl⟩
  | none =>
      obtain ⟨h1, h2, h3⟩ := add_episode_not_found db pn et u1 g1 t1 hfind
      have h2' : (db.add_episode pn et u1 g1 t1).2.episodes.find?
          (episodeKey pn et) = some (db.next_id, newEpisode pn et u1 g1 t1) :=
        h2
      obtain ⟨k1, k2, k3⟩ :=
        add_episode_found (db.add_episode pn et u1 g1 t1).2 pn et u2 g2 t2
          db.next_id (newEpisode pn et u1 g1 t1) h2'
      refine ⟨by rw [k1, h1], by rw [k3, h3],
        newEpisode pn et u1 g1 t1,
        upsertRow u2 g2 t2 (newEpisode pn et u1 g1 t1),
        by rw [h1]; exact h2, by rw [h1]; exact k2, rfl, rfl, rfl⟩

/-- Witness for C8: two upserts of `("PodX", "Ep2")` into a concrete
store return the same id and leave one row for the key. -/
theorem C8_upsert_idempotent_witness :
    ((dbEnriched.add_episode "PodX" "Ep2" (some "u1") none
      3).2.add_episode "PodX" "Ep2" (some "u2") none 4).1 =
      (dbEnriched.add_episode "PodX" "Ep2" (some "u1") none 3).1 ∧
    ((dbEnriched.add_episode "PodX" "Ep2" (some "u1") none
      3).2.add_episode "PodX" "Ep2" (some "u2") none
      4).2.episodes.countP (episodeKey "PodX" "Ep2") = 1 := by
  have h := C8_upsert_idempotent dbEnriched "PodX" "Ep2" (some "u1") none 3
    (some "u2") none 4 (by decide)
  exact ⟨h.1, h.2.1⟩

/-! ## C4: progress clamping -/

/-- C4 (counterexample): the aggregator caps `transcribed` at
`downloaded` but never caps `enriched`: with one valid audio file, no
transcripts and two leftover `*_enriched.json` files the computed
record has `transcribed = 0 < enriched = 2`, violating
`enriched ≤ transcribed`. -/
theorem C4_counterexample :
    (getFeedEntry c4raw).elim False (fun e =>
      e.transcribed ≤ e.downloaded ∧ ¬(e.enriched ≤ e.transcribed)) :=
  ⟨by decide, by decide⟩

/-- C4 (amended): for every computed record, `transcribed ≤ downloaded`
does hold (the source caps `transcribed` at `downloaded`); the claimed
`enriched ≤ transcribed` clamp does not exist and can be violated. -/
theorem C4_transcribed_clamped :
    ∀ (r : RawFeedData) (e : FeedEntry),
      getFeedEntry r = some e → e.transcribed ≤ e.downloaded := by
  intro r e h
  simp only [getFeedEntry] at h
  split at h
  · exact absurd h (by simp)
  · simp only [Option.some.injEq] at h
    subst h
    exact min_le_right _ _

/-- Witness for C4's amended theorem at a concrete feed. -/
theorem C4_transcribed_clamped_witness :
    c45entry.transcribed ≤ c45entry.downloaded :=
  C4_transcribed_clamped c45witnessRaw c45entry (by decide)

/-! ## C5: download completion versus external total -/

/-- C5 (counterexample): with 2 downloads and an external total of 1
(`downloaded >= external_total`) the aggregator does not mark the
download stage complete: `is_dl_complete` is `downloaded == total`,
which is false here. -/
theorem C5_counterexample :
    (getFeedEntry c5raw).elim False (fun e =>
      e.total ≤ e.downloaded ∧ e.is_dl_complete = false) :=
  ⟨by decide, by decide⟩

/-- C5 (amended): the aggregator marks the download stage complete
exactly when the downloaded count equals the external total; when the
external total is smaller than the downloaded count the feed is NOT
marked complete. -/
theorem C5_dl_complete_iff_eq :
    ∀ (r : RawFeedData) (e : FeedEntry), getFeedEntry r = some e →
      (e.is_dl_complete = true ↔ e.downloaded = e.total) := by
  intro r e h
  simp only [getFeedEntry] at h
  split at h
  · exact absurd h (by simp)
  · simp only [Option.some.injEq] at h
    subst h
    exact beq_iff_eq

/-- Witness for C5's amended theorem at a concrete feed. -/
theorem C5_dl_complete_iff_eq_witness :
    c45entry.is_dl_complete = true :=
  (C5_dl_complete_iff_eq c45witnessRaw c45entry (by decide)).mpr (by decide)

/-! ## C6: exponential backoff delay -/

/-- C6 (counterexample): with `failure_count = 1`, `base_delay = 60`,
`max_delay = 1800` and `last_attempt = 0`, a tick at `now = 90` does
launch a worker even though `90 < min(60 * 2^1, 1800) = 120`: the code
waits `base_delay * 2^(failure_count - 1)`, not
`base_delay * 2^failure_count` as claimed. -/
theorem C6_counterexample :
    (dlDecision backoffOneFailure false false (fun _ => false) 90
      (some 7)).1 = true ∧
    (90 : Int) - 0 <
      min (backoffOneFailure.base_delay *
        2 ^ backoffOneFailure.failure_count) backoffOneFailure.max_delay :=
  ⟨rfl, by decide⟩

/-- C6 (amended): a feed with `failure_count = n > 0` and a recorded
`last_attempt` becomes retry-eligible at
`last_attempt + min(base_delay * 2^(n-1), max_delay)`: a tick strictly
before that instant skips the launch and a tick at or after it
attempts one. -/
theorem C6_backoff_delay_exponent :
    ∀ (st : BackoffState) (t : Int) (alive : Nat → Bool) (now : Int)
      (wpid : Option Nat),
      st.manual_mode = false →
      st.last_attempt = some t →
      0 < st.failure_count →
      ((dlDecision st false false alive now wpid).1 = true ↔
        min (st.base_delay * 2 ^ (st.failure_count - 1)) st.max_delay ≤
          now - t) := by
  intro st t alive now wpid hm hl hf
  by_cases hd : now - t <
      min (st.base_delay * 2 ^ (st.failure_count - 1)) st.max_delay
  · simp only [dlDecision, manualStep, backoffSkip, hm, hl, hf,
      Bool.or_self, Bool.false_eq_true, if_false, if_true, if_pos hf,
      decide_eq_true_eq, if_pos hd]
    constructor
    · intro h
      exact absurd h (by simp)
    · intro h
      exact absurd hd (not_lt.mpr h)
  · simp only [dlDecision, manualStep, backoffSkip, hm, hl, hf,
      Bool.or_self, Bool.false_eq_true, if_false, if_true, if_pos hf,
      decide_eq_true_eq, if_neg hd]
    cases wpid <;> simp [not_lt.mp hd]

/-- Witness for C6's amended theorem: at `now = 90 ≥ 60 = min(60*2^0,
1800)` with one prior failure, the launch is attempted. -/
theorem C6_backoff_delay_exponent_witness :
    (dlDecision backoffOneFailure false false (fun _ => false) 90
      (some 7)).1 = true :=
  (C6_backoff_delay_exponent backoffOneFailure 0 (fun _ => false) 90
    (some 7) rfl rfl (by decide)).mpr (by decide)

/-! ## C7: manual failover mode -/

/-- C7: reaching `MANUAL_FAILOVER_THRESHOLD` consecutive observed
failures enters manual mode and launches the manual assistant; while
manual mode holds a live assistant pid, the tick never attempts an
automatic launch for the feed (and leaves its state unchanged); and
manual mode reverts — with the failure count reset to 0 — only when
the recorded assistant process is observed dead, or on an observed
worker success. -/
theorem C7_manual_failover :
    (∀ (st : BackoffState) (lp : Option Nat),
       st.last_attempt.isSome = true →
       st.manual_mode = false →
       MANUAL_FAILOVER_THRESHOLD ≤ st.failure_count + 1 →
       observeFeed st true false true lp =
         ({ st with failure_count := st.failure_count + 1
                    manual_mode := true
                    manual_pid := lp }, true)) ∧
    (∀ (st : BackoffState) (inA inD : Bool) (alive : Nat → Bool)
       (now : Int) (wpid : Option Nat) (pid : Nat),
       st.manual_mode = true →
       st.manual_pid = some pid →
       alive pid = true →
       dlDecision st inA inD alive now wpid = (false, st)) ∧
    (∀ (st : BackoffState) (inA inD : Bool) (alive : Nat → Bool)
       (now : Int) (wpid : Option Nat),
       st.manual_mode = true →
       (dlDecision st inA inD alive now wpid).2.manual_mode = false →
       st.manual_pid ≠ none ∧
       (∀ pid, st.manual_pid = some pid → alive pid = false) ∧
       (dlDecision st inA inD alive now wpid).2.failure_count = 0) ∧
    (∀ (st : BackoffState) (inA inD failed : Bool) (lp : Option Nat),
       st.manual_mode = true →
       (observeFeed st inA inD failed lp).1.manual_mode = false →
       st.last_attempt.isSome = true ∧ inA = true ∧ inD = false ∧
       failed = false ∧
       (observeFeed st inA inD failed lp).1.failure_count = 0) := by
  refine ⟨?_, ?_, ?_, ?_⟩
  · intro st lp hla hm hth
    simp [observeFeed, hla, hm, hth]
  · intro st inA inD alive now wpid pid hm hp halive
    by_cases h : (inA || inD) = true
    · simp [dlDecision, h]
    · simp [dlDecision, h, manualStep, hm, hp, halive]
  · intro st inA inD alive now wpid hm hres
    by_cases h : (inA || inD) = true
    · have heq : dlDecision st inA inD alive now wpid = (false, st) := by
        simp [dlDecision, h]
      rw [heq] at hres
      rw [hm] at hres
      exact absurd hres (by simp)
    · cases hp : st.manual_pid with
      | none =>
          have hstep : manualStep st alive = some st := by
            simp [manualStep, hm, hp]
          have hmm : (dlDecision st inA inD alive now wpid).2.manual_mode =
              st.manual_mode := by
            unfold dlDecision
            rw [if_neg h]
            simp only [hstep]
            by_cases hb : backoffSkip st now = true
            · rw [if_pos hb]
            · rw [if_neg hb]
              cases wpid <;> rfl
          rw [hmm, hm] at hres
          exact absurd hres (by simp)
      | some pid =>
          by_cases halive : alive pid = true
          · have heq : dlDecision st inA inD alive now wpid = (false, st) :=
              by simp [dlDecision, h, manualStep, hm, hp, halive]
            rw [heq] at hres
            rw [hm] at hres
            exact absurd hres (by simp)
          · have halive' := eq_false_of_ne_true halive
            have hstep : manualStep st alive = some
                { st with manual_mode := false, manual_pid := none,
                          failure_count := 0 } := by
              simp [manualStep, hm, hp, halive']
            have hskip : backoffSkip
                { st with manual_mode := false, manual_pid := none,
                          failure_count := 0 } now = false := by
              cases hla : st.last_attempt <;> simp [backoffSkip, hla]
            refine ⟨by simp, ?_, ?_⟩
            · intro pid2 hp2
              injection hp2 with hh
              rw [← hh]
              exact halive'
            · unfold dlDecision
              rw [if_neg h]
              simp only [hstep, hskip, Bool.false_eq_true, if_false]
              cases wpid <;> rfl
  · intro st inA inD failed lp hm hres
    by_cases hc : (st.last_attempt.isSome && inA && !inD) = true
    · have hparts := hc
      rw [Bool.and_eq_true, Bool.and_eq_true] at hparts
      obtain ⟨⟨h1, h2⟩, h3⟩ := hparts
      by_cases hfail : failed = true
      · rw [show observeFeed st inA inD failed lp =
            ({ st with failure_count := st.failure_count + 1 }, false)
            from by simp [observeFeed, hc, hfail, hm]] at hres
        exact absurd hres (by rw [hm]; simp)
      · have hfail' := eq_false_of_ne_true hfail
        refine ⟨h1, h2, by simpa using h3, hfail', ?_⟩
        rw [show observeFeed st inA inD failed lp =
            ({ st with failure_count := 0, manual_mode := false }, false)
            from by simp [observeFeed, hc, hfail']]
    · rw [show observeFeed st inA inD failed lp = (st, false) from by
        simp [observeFeed, hc]] at hres
      exact absurd hres (by rw [hm]; simp)

/-- Witness for C7 at concrete states: a third observed failure enters
manual mode with the launched pid recorded, and a tick with the
assistant alive attempts no launch and changes nothing. -/
theorem C7_manual_failover_witness :
    observeFeed backoffTwoFailures true false true (some 5) =
      ({ backoffTwoFailures with failure_count := 3, manual_mode := true
                                 manual_pid := some 5 }, true) ∧
    dlDecision backoffManual false false (fun _ => true) 500 (some 4) =
      (false, backoffManual) := by
  constructor
  · exact C7_manual_failover.1 backoffTwoFailures (some 5) rfl rfl
      (by decide)
  · exact C7_manual_failover.2.1 backoffManual false false (fun _ => true)
      500 (some 4) 9 rfl rfl rfl

/-! ## C9: stall detection -/

/-- C9: the per-feed history is a ring buffer of at most 5 samples
(oldest dropped when full), and — given that cap — a feed is flagged
stalled exactly when the buffer is full, all samples are equal, the
download stage is not complete, `remaining > 5` and the completion
percentage is below 99% (the code's extra `remaining > 0` and
`downloaded < total` conjuncts are implied); Scenario E's two
instances evaluate as claimed. -/
theorem C9_stall_detector :
    (∀ (hist : List Int) (d t r : Int) (c : Bool),
       hist.length ≤ STALL_THRESHOLD →
       (isStalled hist d t r c = true ↔
         (hist.length = 5 ∧ allEqual hist = true ∧ c = false ∧ 5 < r ∧
          completionLt99 d t = true))) ∧
    (∀ (hist : List Int) (d : Int),
       hist.length ≤ STALL_THRESHOLD →
       (updateHistory hist d).length ≤ STALL_THRESHOLD) ∧
    (∀ (hist : List Int) (d : Int),
       hist.length = STALL_THRESHOLD →
       updateHistory hist d = hist.drop 1 ++ [d]) ∧
    (∀ (hist : List Int) (d : Int),
       hist.length < STALL_THRESHOLD →
       updateHistory hist d = hist ++ [d]) ∧
    isStalled [10, 10, 10, 10, 10] 92 100 8 false = true ∧
    isStalled [10, 10, 10, 10, 10] 98 100 2 false = false := by
  refine ⟨?_, ?_, ?_, ?_, by decide, by decide⟩
  · intro hist d t r c hlen
    have hdt : completionLt99 d t = true → d < t := by
      intro h
      unfold completionLt99 at h
      split at h
      · next hpos => rw [decide_eq_true_eq] at h; omega
      · exact absurd h (by simp)
    simp only [STALL_THRESHOLD] at hlen
    simp only [isStalled, STALL_THRESHOLD, Bool.and_eq_true,
      decide_eq_true_eq, Bool.not_eq_true']
    constructor
    · rintro ⟨⟨⟨⟨⟨⟨hl, ha⟩, hc⟩, -⟩, hr5⟩, hcl⟩, -⟩
      exact ⟨by omega, ha, hc, hr5, hcl⟩
    · rintro ⟨hl, ha, hc, hr5, hcl⟩
      exact ⟨⟨⟨⟨⟨⟨by omega, ha⟩, hc⟩, by omega⟩, hr5⟩, hcl⟩, hdt hcl⟩
  · intro hist d hlen
    simp only [STALL_THRESHOLD] at hlen
    simp only [updateHistory, STALL_THRESHOLD]
    split
    · simp only [List.length_drop, List.length_append, List.length_cons,
        List.length_nil]
      omega
    · next hno =>
        simp only [List.length_append, List.length_cons,
          List.length_nil] at hno ⊢
        omega
  · intro hist d hlen
    simp only [STALL_THRESHOLD] at hlen
    simp only [updateHistory, STALL_THRESHOLD]
    rw [if_pos (by
      simp only [List.length_append, List.length_cons, List.length_nil]
      omega)]
    rw [List.drop_append_of_le_length (by omega)]
  · intro hist d hlen
    simp only [STALL_THRESHOLD] at hlen
    simp only [updateHistory, STALL_THRESHOLD]
    rw [if_neg (by
      simp only [List.length_append, List.length_cons, List.length_nil]
      omega)]

/-- Witness for C9: the iff applied to Scenario E's first instance. -/
theorem C9_stall_detector_witness :
    isStalled [10, 10, 10, 10, 10] 92 100 8 false = true :=
  (C9_stall_detector.1 [10, 10, 10, 10, 10] 92 100 8 false
    (by decide)).mpr ⟨by decide, by decide, rfl, by decide, by decide⟩

end PodcastRag
